import Mathlib

/-!
Verification of the Ticket Assignment & SLA Lifecycle Engine of the
khalifa customer-support repository.

The definitions below are a shallow embedding of the Python source in
`System/conversations/utils.py` and `System/conversations/views.py`:
  - `check_ticket_delay`, `update_ticket_delay_status`,
    `get_available_agent`, `assign_ticket_to_agent`,
    `calculate_agent_kpi` come from `utils.py`;
  - `perform_create`, `close_ticket` (TicketViewSet.close),
    `transfer_ticket` (TicketViewSet.transfer), `transfer_ticket_api`,
    `take_break`, `end_break` come from `views.py`.

Timestamps are integers (seconds).  Database rows are Lean structures,
tables are lists, and each endpoint is a function from an `EngineState`
to a result together with the next `EngineState`; a Django `save()`
writes the whole (possibly stale) in-memory object, which the embedding
reproduces by replacing the whole row.
-/

/-- Agent.status choices in `models.py`. -/
inductive AgentStatus
  | available
  | busy
  | offline
  | onBreak
deriving DecidableEq, Repr

/-- Ticket.status choices in `models.py` (`open` / `delayed` / `closed`;
`open` is a Lean keyword, rendered `opened`). -/
inductive TicketStatus
  | opened
  | delayed
  | closed
deriving DecidableEq, Repr

/-- String stored for a ticket status in log rows. -/
def statusStr : TicketStatus → String
  | .opened => "open"
  | .delayed => "delayed"
  | .closed => "closed"

/-- The Agent row (`models.py`, class Agent).  Counters are `Int`
because Django IntegerFields are signed. -/
structure Agent where
  id : Nat
  maxCapacity : Int
  currentActiveTickets : Int
  isOnline : Bool
  status : AgentStatus
  isOnBreak : Bool
  breakStartedAt : Option Int
  totalBreakMinutesToday : Int
deriving DecidableEq, Repr

/-- The Ticket row (`models.py`, class Ticket), restricted to the fields
the engine logic reads or writes. -/
structure Ticket where
  id : Nat
  customerId : Nat
  status : TicketStatus
  assignedAgent : Option Nat
  currentAgent : Option Nat
  isDelayed : Bool
  delayStartedAt : Option Int
  totalDelayMinutes : Int
  delayCount : Int
  createdAt : Int
  lastCustomerMessageAt : Option Int
  lastAgentMessageAt : Option Int
  firstResponseAt : Option Int
  responseTimeSeconds : Option Int
  closedAt : Option Int
  handlingTimeSeconds : Option Int
  closureReason : String
deriving DecidableEq, Repr

/-- TicketTransferLog row (append-only). -/
structure TicketTransferLog where
  ticketId : Nat
  fromAgent : Option Nat
  toAgent : Nat
  reason : String
  transferredBy : Nat
deriving DecidableEq, Repr

/-- TicketStateLog row (append-only). -/
structure TicketStateLog where
  ticketId : Nat
  changedBy : Option Nat
  oldState : String
  newState : String
  reason : String
deriving DecidableEq, Repr

/-- AgentBreakSession row. -/
structure AgentBreakSession where
  agentId : Nat
  breakStartTime : Int
  breakEndTime : Option Int
  breakDurationSeconds : Option Int
deriving DecidableEq, Repr

/-- The database state the engine operations read and write. -/
structure EngineState where
  agents : List Agent
  tickets : List Ticket
  transferLogs : List TicketTransferLog
  stateLogs : List TicketStateLog
  breakSessions : List AgentBreakSession
deriving DecidableEq, Repr

/-- Result of an endpoint call: HTTP success, a 400-style rejection, or
a 404-style lookup failure. -/
inductive ApiResult
  | ok
  | rejected
  | notFound
deriving DecidableEq, Repr

/-- `Agent.objects.get(id=aid)`. -/
def findAgent (s : EngineState) (aid : Nat) : Option Agent :=
  s.agents.find? (fun a => a.id == aid)

/-- `Ticket.objects.get(id=tid)` / `self.get_object()`. -/
def findTicket (s : EngineState) (tid : Nat) : Option Ticket :=
  s.tickets.find? (fun t => t.id == tid)

/-- `agent.save()`: the row with the object's id is overwritten with the
whole in-memory object. -/
def updateAgent (s : EngineState) (a : Agent) : EngineState :=
  { s with agents := s.agents.map (fun x => if x.id == a.id then a else x) }

/-- `ticket.save()`: the row with the object's id is overwritten with
the whole in-memory object. -/
def updateTicket (s : EngineState) (t : Ticket) : EngineState :=
  { s with tickets := s.tickets.map (fun x => if x.id == t.id then t else x) }

/-- `Ticket.objects.filter(current_agent=agent, status=open).count()`. -/
def openTicketCountOf (s : EngineState) (aid : Nat) : Int :=
  ((s.tickets.filter
      (fun t => t.currentAgent == some aid && t.status == .opened)).length : Int)

/-- `utils.check_ticket_delay`: pure delay decision.
`delayThreshold` is `SystemSettings.delay_threshold_minutes`. -/
def check_ticket_delay (delayThreshold : Int) (now : Int) (t : Ticket) : Bool :=
  if t.status != .opened then
    false
  else
    match t.lastCustomerMessageAt with
    | none => false
    | some c =>
      -- `if ticket.last_agent_message_at and ticket.last_agent_message_at >
      --  ticket.last_customer_message_at: return False`
      let answered : Bool :=
        match t.lastAgentMessageAt with
        | some a => a > c
        | none => false
      if answered then
        false
      else if now - c > delayThreshold * 60 then
        true
      else
        false

/-- `utils.update_ticket_delay_status`: updates the delay bookkeeping of
one ticket and appends the state-log rows the source creates. -/
def update_ticket_delay_status (delayThreshold : Int) (now : Int)
    (t : Ticket) (logs : List TicketStateLog) : Ticket × List TicketStateLog :=
  let isDelayed := check_ticket_delay delayThreshold now t
  if isDelayed && !t.isDelayed then
    let t' := { t with
      isDelayed := true
      delayStartedAt := some now
      delayCount := t.delayCount + 1 }
    (t', logs ++ [{ ticketId := t.id, changedBy := none,
                    oldState := statusStr t.status, newState := "delayed",
                    reason := "تأخر الرد لأكثر من 3 دقائق" }])
  else if !isDelayed && t.isDelayed then
    let added : Int :=
      match t.delayStartedAt with
      | some d0 => (now - d0) / 60
      | none => 0
    let t' := { t with
      totalDelayMinutes := t.totalDelayMinutes + added
      isDelayed := false
      delayStartedAt := none }
    (t', logs ++ [{ ticketId := t.id, changedBy := none,
                    oldState := "delayed", newState := statusStr t.status,
                    reason := "الموظف رد على الرسالة" }])
  else
    (t, logs)

/-- Eligibility filter of `utils.get_available_agent`. -/
def agentEligible (a : Agent) : Bool :=
  a.isOnline && a.status == .available && !a.isOnBreak
    && a.currentActiveTickets < a.maxCapacity

/-- `order_by('current_active_tickets').first()` over a list: the first
row of minimal load (ties keep the earlier row). -/
def leastLoaded : List Agent → Option Agent
  | [] => none
  | a :: rest =>
    match leastLoaded rest with
    | none => some a
    | some b => if a.currentActiveTickets ≤ b.currentActiveTickets then some a else some b

/-- `utils.get_available_agent`: least-loaded online available agent not
on break and under capacity. -/
def get_available_agent (s : EngineState) : Option Agent :=
  leastLoaded (s.agents.filter agentEligible)

/-- `utils.assign_ticket_to_agent`: sets both agent pointers and
reserves a slot.  Returns the saved ticket and agent objects. -/
def assign_ticket_to_agent (t : Ticket) (a : Agent) : Ticket × Agent :=
  let t' := { t with assignedAgent := some a.id, currentAgent := some a.id }
  let a' := { a with currentActiveTickets := a.currentActiveTickets + 1 }
  let a'' := if a'.currentActiveTickets ≥ a'.maxCapacity
             then { a' with status := .busy } else a'
  (t', a'')

/-- `TicketViewSet.perform_create` (`views.py` 1400-1451): create a
ticket and auto-assign it with `get_available_agent`.  `tid` is the new
row's id, `cid` the customer, `now` the clock. -/
def perform_create (s : EngineState) (tid cid : Nat) (now : Int) : EngineState :=
  let baseTicket : Ticket :=
    { id := tid, customerId := cid, status := .opened,
      assignedAgent := none, currentAgent := none,
      isDelayed := false, delayStartedAt := none,
      totalDelayMinutes := 0, delayCount := 0,
      createdAt := now, lastCustomerMessageAt := none,
      lastAgentMessageAt := none, firstResponseAt := none,
      responseTimeSeconds := none, closedAt := none,
      handlingTimeSeconds := none, closureReason := "" }
  match get_available_agent s with
  | none =>
    { s with tickets := s.tickets ++ [baseTicket] }
  | some agent =>
    let t := { baseTicket with
      assignedAgent := some agent.id, currentAgent := some agent.id }
    let a' := { agent with currentActiveTickets := agent.currentActiveTickets + 1 }
    let a'' := if a'.currentActiveTickets ≥ a'.maxCapacity
               then { a' with status := .busy } else a'
    updateAgent { s with tickets := s.tickets ++ [t] } a''

/-- The source's repeated "release the agent's capacity slot" block
(`views.py` 1556-1565 and 1636-1641): decrement floored at 0, back to
available when below capacity. -/
def releaseSlot (s : EngineState) (aid? : Option Nat) : EngineState :=
  match aid? with
  | none => s
  | some aid =>
    match findAgent s aid with
    | none => s
    | some ag =>
      let c := max 0 (ag.currentActiveTickets - 1)
      updateAgent s { ag with
        currentActiveTickets := c
        status := if c < ag.maxCapacity then .available else ag.status }

/-- The source's guarded `TicketStateLog.objects.create` (only when
`request.user` is authenticated). -/
def appendStateLog (s : EngineState) (actor : Option Nat) (tid : Nat)
    (old new reason : String) : EngineState :=
  match actor with
  | some u =>
    { s with stateLogs := s.stateLogs ++
        [{ ticketId := tid, changedBy := some u, oldState := old,
           newState := new, reason := reason }] }
  | none => s

/-- The source's guarded `TicketTransferLog.objects.create` (only when
`request.user` is authenticated). -/
def appendTransferLog (s : EngineState) (actor : Option Nat) (tid : Nat)
    (fromA : Option Nat) (toA : Nat) (reason : String) : EngineState :=
  match actor with
  | some u =>
    { s with transferLogs := s.transferLogs ++
        [{ ticketId := tid, fromAgent := fromA, toAgent := toA,
           reason := reason, transferredBy := u }] }
  | none => s

/-- `TicketViewSet.close` (`views.py` 1526-1601).  `actor` is
`request.user` when authenticated (gates the state-log row, exactly as
the source's `if user and user.is_authenticated`). -/
def close_ticket (s : EngineState) (tid : Nat) (actor : Option Nat)
    (reason : String) (now : Int) : ApiResult × EngineState :=
  match findTicket s tid with
  | none => (.notFound, s)
  | some t =>
    if t.status == .closed then
      (.rejected, s)
    else
      let oldStatus := t.status
      let t' := { t with
        status := .closed
        closedAt := some now
        closureReason := reason
        handlingTimeSeconds := some (now - t.createdAt) }
      let s1 := updateTicket s t'
      let s2 := releaseSlot s1 t.currentAgent
      let s3 := appendStateLog s2 actor tid (statusStr oldStatus) "closed" reason
      (.ok, s3)

/-- `TicketViewSet.transfer` (`views.py` 1603-1681): manual transfer of
one ticket, rejected when the target is at capacity.  The final
`new_agent.save()` writes the object fetched before the old agent's
update, which matters if source and target coincide. -/
def transfer_ticket (s : EngineState) (tid newAgentId : Nat)
    (actor : Option Nat) (reason : String) : ApiResult × EngineState :=
  match findTicket s tid with
  | none => (.notFound, s)
  | some t =>
    match findAgent s newAgentId with
    | none => (.notFound, s)
    | some newAgent =>
      if newAgent.currentActiveTickets ≥ newAgent.maxCapacity then
        (.rejected, s)
      else
        let oldAgentId := t.currentAgent
        let s1 := updateTicket s { t with currentAgent := some newAgentId }
        let s2 := releaseSlot s1 oldAgentId
        let newC := newAgent.currentActiveTickets + 1
        let s3 := updateAgent s2 { newAgent with
          currentActiveTickets := newC
          status := if newC ≥ newAgent.maxCapacity then .busy else newAgent.status }
        let s4 := appendTransferLog s3 actor tid oldAgentId newAgentId reason
        (.ok, s4)

/-- Ticket filter of `transfer_ticket_api`: the customer's open tickets
currently held by the requesting agent. -/
def customerOpenTicketsOf (s : EngineState) (cid fromAgentId : Nat) : List Ticket :=
  s.tickets.filter
    (fun t => t.customerId == cid && t.currentAgent == some fromAgentId
        && t.status == .opened)

/-- One iteration of the `transfer_ticket_api` loop: move ticket `t`
(from the pre-loop snapshot) to `toAgentId` and append the log row. -/
def bulkTransferStep (fromAgentId toAgentId actorUser : Nat) (note : String)
    (acc : EngineState) (t : Ticket) : EngineState :=
  let acc1 := updateTicket acc { t with currentAgent := some toAgentId }
  { acc1 with transferLogs := acc1.transferLogs ++
      [{ ticketId := t.id, fromAgent := some fromAgentId,
         toAgent := toAgentId,
         reason := if note == "" then "تحويل من الموظف" else note,
         transferredBy := actorUser }] }

/-- `transfer_ticket_api` (`views.py` 1788-1891): customer-level bulk
transfer.  No capacity check on the target; afterwards both agents'
counters are recomputed from the live open-ticket set. -/
def transfer_ticket_api (s : EngineState) (fromAgentId cid toAgentId : Nat)
    (note : String) (actorUser : Nat) : ApiResult × EngineState :=
  match findAgent s fromAgentId with
  | none => (.notFound, s)
  | some fromAgent =>
    match findAgent s toAgentId with
    | none => (.notFound, s)
    | some toAgent =>
      let openTickets := customerOpenTicketsOf s cid fromAgentId
      if openTickets.isEmpty then
        (.notFound, s)
      else
        let s1 := openTickets.foldl (bulkTransferStep fromAgentId toAgentId actorUser note) s
        let cFrom := openTicketCountOf s1 fromAgentId
        let s2 := updateAgent s1 { fromAgent with
          currentActiveTickets := cFrom
          status := if cFrom < fromAgent.maxCapacity then .available else fromAgent.status }
        let cTo := openTicketCountOf s2 toAgentId
        let s3 := updateAgent s2 { toAgent with
          currentActiveTickets := cTo
          status := if cTo ≥ toAgent.maxCapacity then .busy else toAgent.status }
        (.ok, s3)

/-- One iteration of the `take_break` redistribution loop
(`views.py` 912-938): `get_available_agent` is re-queried against the
current database state; the selected agent's counter is then recomputed
from the live open-ticket set.  The breaking agent is NOT excluded from
the candidate set (its break flags are only written after the loop). -/
def takeBreakStep (breakingAgentId actorUser : Nat)
    (acc : EngineState) (t : Ticket) : EngineState :=
  match get_available_agent acc with
  | none => acc
  | some newAgent =>
    let acc1 := updateTicket acc { t with currentAgent := some newAgent.id }
    let acc2 := { acc1 with transferLogs := acc1.transferLogs ++
        [{ ticketId := t.id, fromAgent := some breakingAgentId,
           toAgent := newAgent.id,
           reason := "تحويل تلقائي - الموظف في استراحة",
           transferredBy := actorUser }] }
    let c := openTicketCountOf acc2 newAgent.id
    updateAgent acc2 { newAgent with
      currentActiveTickets := c
      status := if c ≥ newAgent.maxCapacity then .busy else newAgent.status }

/-- `AgentViewSet.take_break` (`views.py` 866-979): reject when already
on break; otherwise redistribute the agent's open tickets and put the
agent on break with a zeroed counter.  The final `agent.save()` writes
the object fetched before the loop, plus the four break fields. -/
def take_break (s : EngineState) (agentId actorUser : Nat) (now : Int) :
    ApiResult × EngineState :=
  match findAgent s agentId with
  | none => (.notFound, s)
  | some agent =>
    if agent.isOnBreak then
      (.rejected, s)
    else
      let snapshot := s.tickets.filter
        (fun t => t.currentAgent == some agentId && t.status == .opened)
      let s1 := snapshot.foldl (takeBreakStep agentId actorUser) s
      let agent' := { agent with
        isOnBreak := true
        breakStartedAt := some now
        status := .onBreak
        currentActiveTickets := 0 }
      (.ok, updateAgent s1 agent')

/-- `AgentViewSet.end_break` (`views.py` 981-1083): reject when not on
break; otherwise create the AgentBreakSession row (only here, with end
time and duration already set) and clear the break flags. -/
def end_break (s : EngineState) (agentId : Nat) (now : Int) :
    ApiResult × EngineState :=
  match findAgent s agentId with
  | none => (.notFound, s)
  | some agent =>
    if !agent.isOnBreak then
      (.rejected, s)
    else
      match agent.breakStartedAt with
      | some t0 =>
        let breakSeconds := now - t0
        let breakMinutes := breakSeconds / 60
        let agent1 := { agent with
          totalBreakMinutesToday := agent.totalBreakMinutesToday + breakMinutes }
        let agent2 := { agent1 with
          isOnBreak := false
          breakStartedAt := none
          status := if agent1.currentActiveTickets ≥ agent1.maxCapacity
                    then .busy else .available }
        let s1 := { s with breakSessions := s.breakSessions ++
            [{ agentId := agentId, breakStartTime := t0,
               breakEndTime := some now,
               breakDurationSeconds := some breakSeconds }] }
        (.ok, updateAgent s1 agent2)
      | none =>
        let agent2 := { agent with
          isOnBreak := false
          breakStartedAt := none
          status := if agent.currentActiveTickets ≥ agent.maxCapacity
                    then .busy else .available }
        (.ok, updateAgent s agent2)

/-- AgentKPI row (`models.py`, class AgentKPI), with the rate fields as
exact rationals. -/
structure AgentKPI where
  agentId : Nat
  kpiDate : Int
  totalTickets : Nat
  closedTickets : Nat
  avgResponseTimeSeconds : Int
  messagesSent : Nat
  messagesReceived : Nat
  delayCount : Nat
  totalBreakTimeSeconds : Int
  breakCount : Nat
  customerSatisfactionScore : ℚ
  firstResponseRate : ℚ
  resolutionRate : ℚ
  overallKpiScore : ℚ
deriving DecidableEq, Repr

/-- Python `int(q)`: truncation toward zero of a rational. -/
def pyInt (q : ℚ) : Int := q.num / (q.den : Int)

/-- The single day's database slice `calculate_agent_kpi` aggregates
over for one agent: the tickets with `assigned_agent=agent` created on
the date, the day's message counts by sender role, the day's
satisfaction ratings, and the day's completed break-session durations
(`break_duration_seconds__isnull=False`). -/
structure KpiDayData where
  tickets : List Ticket
  messagesSent : Nat
  messagesReceived : Nat
  ratings : List Int
  breakDurations : List Int
deriving DecidableEq, Repr

/-- `utils.calculate_agent_kpi` (`utils.py` 151-264): the pure
computation of the KPI row from the day's data. -/
def calculate_agent_kpi (agentId : Nat) (date : Int) (d : KpiDayData) : AgentKPI :=
  let totalTickets := d.tickets.length
  let closedTickets := (d.tickets.filter (fun t => t.status == .closed)).length
  let responseTimes := d.tickets.filterMap (fun t => t.responseTimeSeconds)
  let avgResponseTime : ℚ :=
    if responseTimes.isEmpty then 0
    else ((responseTimes.foldl (· + ·) 0 : Int) : ℚ) / (responseTimes.length : ℚ)
  let delayCount := (d.tickets.filter (fun t => t.delayCount > 0)).length
  let satisfaction : ℚ :=
    if d.ratings.isEmpty then 0
    else ((d.ratings.foldl (· + ·) 0 : Int) : ℚ) / (d.ratings.length : ℚ)
  let totalBreakTimeSeconds : Int := d.breakDurations.foldl (· + ·) 0
  let breakCount := d.breakDurations.length
  let firstResponseRate : ℚ :=
    if totalTickets > 0 then
      let ticketsWithResponse :=
        (d.tickets.filter (fun t => t.firstResponseAt.isSome)).length
      ((ticketsWithResponse : ℚ) / (totalTickets : ℚ)) * 100
    else 0
  let resolutionRate : ℚ :=
    if totalTickets > 0 then ((closedTickets : ℚ) / (totalTickets : ℚ)) * 100
    else 0
  let overallKpiScore : ℚ :=
    (firstResponseRate + resolutionRate + satisfaction * 20) / 3
  { agentId := agentId, kpiDate := date,
    totalTickets := totalTickets, closedTickets := closedTickets,
    avgResponseTimeSeconds := pyInt avgResponseTime,
    messagesSent := d.messagesSent, messagesReceived := d.messagesReceived,
    delayCount := delayCount,
    totalBreakTimeSeconds := totalBreakTimeSeconds, breakCount := breakCount,
    customerSatisfactionScore := satisfaction,
    firstResponseRate := firstResponseRate, resolutionRate := resolutionRate,
    overallKpiScore := overallKpiScore }

/-- `AgentKPI.objects.update_or_create(agent=..., kpi_date=..., defaults=all
fields)`: the per-(agent, date) row is overwritten in full, or inserted. -/
def upsertKpi (table : List AgentKPI) (k : AgentKPI) : List AgentKPI :=
  if table.any (fun r => r.agentId == k.agentId && r.kpiDate == k.kpiDate) then
    table.map (fun r => if r.agentId == k.agentId && r.kpiDate == k.kpiDate then k else r)
  else
    table ++ [k]

/-! ## Test fixtures (concrete rows used by witnesses and counterexamples) -/

/-- A ticket row with the engine-relevant fields filled in and every
other field at its model default. -/
def testTicket (tid cid : Nat) (st : TicketStatus) (assigned cur : Option Nat) :
    Ticket :=
  { id := tid, customerId := cid, status := st, assignedAgent := assigned,
    currentAgent := cur, isDelayed := false, delayStartedAt := none,
    totalDelayMinutes := 0, delayCount := 0, createdAt := 0,
    lastCustomerMessageAt := none, lastAgentMessageAt := none,
    firstResponseAt := none, responseTimeSeconds := none, closedAt := none,
    handlingTimeSeconds := none, closureReason := "" }

/-- An online agent row not on break. -/
def testAgent (aid : Nat) (cap cnt : Int) (st : AgentStatus) : Agent :=
  { id := aid, maxCapacity := cap, currentActiveTickets := cnt,
    isOnline := true, status := st, isOnBreak := false,
    breakStartedAt := none, totalBreakMinutesToday := 0 }

/-! ## Helper lemmas -/

/-- A fold preserves any invariant its step preserves. -/
theorem List.foldl_invariant {α β : Type} (P : α → Prop) (f : α → β → α) :
    ∀ (l : List β) (acc : α), (∀ a b, b ∈ l → P a → P (f a b)) → P acc →
      P (l.foldl f acc)
  | [], _, _, h0 => h0
  | b :: bs, acc, hstep, h0 =>
    List.foldl_invariant P f bs (f acc b)
      (fun a b' hb' => hstep a b' (List.mem_cons_of_mem _ hb'))
      (hstep acc b (List.mem_cons_self _ _) h0)

theorem findAgent_mem {s : EngineState} {aid : Nat} {a : Agent}
    (h : findAgent s aid = some a) : a ∈ s.agents :=
  List.mem_of_find?_eq_some h

theorem findAgent_id {s : EngineState} {aid : Nat} {a : Agent}
    (h : findAgent s aid = some a) : a.id = aid := by
  have := List.find?_some h
  simpa using this

theorem findTicket_mem {s : EngineState} {tid : Nat} {t : Ticket}
    (h : findTicket s tid = some t) : t ∈ s.tickets :=
  List.mem_of_find?_eq_some h

theorem findTicket_id {s : EngineState} {tid : Nat} {t : Ticket}
    (h : findTicket s tid = some t) : t.id = tid := by
  have := List.find?_some h
  simpa using this

theorem mem_updateAgent {s : EngineState} {a x : Agent}
    (h : x ∈ (updateAgent s a).agents) : x ∈ s.agents ∨ x = a := by
  simp only [updateAgent, List.mem_map] at h
  obtain ⟨y, hy, hxy⟩ := h
  by_cases hid : (y.id == a.id) = true
  · right; simp [hid] at hxy; exact hxy.symm
  · left; simp [hid] at hxy; exact hxy ▸ hy

theorem updateAgent_tickets (s : EngineState) (a : Agent) :
    (updateAgent s a).tickets = s.tickets := rfl

theorem updateTicket_agents (s : EngineState) (t : Ticket) :
    (updateTicket s t).agents = s.agents := rfl

theorem leastLoaded_mem {l : List Agent} {a : Agent}
    (h : leastLoaded l = some a) : a ∈ l := by
  induction l with
  | nil => simp [leastLoaded] at h
  | cons x xs ih =>
    cases hrec : leastLoaded xs with
    | none =>
      simp only [leastLoaded, hrec] at h
      cases h; exact List.mem_cons_self _ _
    | some b =>
      simp only [leastLoaded, hrec] at h
      split at h
      · cases h; exact List.mem_cons_self _ _
      · cases h; exact List.mem_cons_of_mem _ (ih hrec)

theorem get_available_agent_spec {s : EngineState} {a : Agent}
    (h : get_available_agent s = some a) :
    a ∈ s.agents ∧ agentEligible a = true := by
  have hmem := leastLoaded_mem h
  rw [List.mem_filter] at hmem
  exact hmem

/-! ## C4: manual transfer to a full agent is rejected without effect -/

/-- C4: `TicketViewSet.transfer` to a target agent whose
`current_active_tickets` is at or above its `max_capacity` is rejected,
and on rejection the whole state — both agents' counters and statuses,
the ticket's `current_agent`, and the transfer-log table — is the
unchanged state `s`. -/
theorem C4_transfer_at_capacity_rejected (s : EngineState)
    (tid aid : Nat) (actor : Option Nat) (reason : String)
    (t : Ticket) (ag : Agent)
    (ht : findTicket s tid = some t)
    (ha : findAgent s aid = some ag)
    (hfull : ag.currentActiveTickets ≥ ag.maxCapacity) :
    transfer_ticket s tid aid actor reason = (.rejected, s) := by
  simp only [transfer_ticket, ht, ha, if_pos hfull]

/-- Concrete run of C4: target at capacity (2 of 2), request rejected,
state returned untouched. -/
theorem C4_witness :
    transfer_ticket
      { agents := [testAgent 1 2 2 .busy],
        tickets := [testTicket 10 5 .opened none none],
        transferLogs := [], stateLogs := [], breakSessions := [] }
      10 1 (some 9) "x" =
    (.rejected,
      { agents := [testAgent 1 2 2 .busy],
        tickets := [testTicket 10 5 .opened none none],
        transferLogs := [], stateLogs := [], breakSessions := [] }) :=
  C4_transfer_at_capacity_rejected _ 10 1 (some 9) "x"
    (testTicket 10 5 .opened none none) (testAgent 1 2 2 .busy)
    (by decide) (by decide) (by decide)

/-! ## C5: closing an already-closed ticket is rejected without effect -/

/-- C5: `TicketViewSet.close` on a ticket whose status is already
`closed` is rejected and the whole state — the ticket's fields, every
agent's counters, and the state-log table — is the unchanged state `s`. -/
theorem C5_close_already_closed_rejected (s : EngineState)
    (tid : Nat) (actor : Option Nat) (reason : String) (now : Int)
    (t : Ticket)
    (ht : findTicket s tid = some t)
    (hclosed : t.status = .closed) :
    close_ticket s tid actor reason now = (.rejected, s) := by
  simp only [close_ticket, ht, hclosed]
  rfl

/-- Concrete run of C5: a closed ticket, close request rejected, state
returned untouched. -/
theorem C5_witness :
    close_ticket
      { agents := [testAgent 1 2 0 .available],
        tickets := [testTicket 10 5 .closed (some 1) (some 1)],
        transferLogs := [], stateLogs := [], breakSessions := [] }
      10 (some 9) "again" 100 =
    (.rejected,
      { agents := [testAgent 1 2 0 .available],
        tickets := [testTicket 10 5 .closed (some 1) (some 1)],
        transferLogs := [], stateLogs := [], breakSessions := [] }) :=
  C5_close_already_closed_rejected _ 10 (some 9) "again" 100
    (testTicket 10 5 .closed (some 1) (some 1)) (by decide) (by decide)

/-! ## C6: re-running the delay update is a no-op -/

/-- `check_ticket_delay` does not read the delay-bookkeeping fields, so
updating them leaves its verdict unchanged. -/
theorem check_ticket_delay_bookkeeping_irrelevant (th now : Int) (t : Ticket)
    (b : Bool) (dsa : Option Int) (tdm dc : Int) :
    check_ticket_delay th now
      { t with isDelayed := b, delayStartedAt := dsa,
               totalDelayMinutes := tdm, delayCount := dc }
      = check_ticket_delay th now t := rfl

/-- C6: running `update_ticket_delay_status` a second time at the same
observation time, with no intervening message, returns exactly the
ticket and log list of the first run: `delay_count` and
`total_delay_minutes` are unchanged and no duplicate `TicketStateLog`
row is appended. -/
theorem C6_delay_update_idempotent (th now : Int) (t : Ticket)
    (logs : List TicketStateLog) :
    update_ticket_delay_status th now
        (update_ticket_delay_status th now t logs).1
        (update_ticket_delay_status th now t logs).2
      = update_ticket_delay_status th now t logs := by
  cases hb : check_ticket_delay th now t <;> cases hd : t.isDelayed <;>
    simp [update_ticket_delay_status, hb, hd,
      check_ticket_delay_bookkeeping_irrelevant]

/-! ## C3: the delay decision function -/

/-- An open ticket whose last agent message and last customer message
carry the same timestamp. -/
def tieTicket : Ticket :=
  { testTicket 20 5 .opened (some 1) (some 1) with
    lastCustomerMessageAt := some 0, lastAgentMessageAt := some 0 }

/-- C3 counterexample: the claim says a ticket whose last agent message
is AT OR AFTER its last customer message is not delayed; the source
(`utils.check_ticket_delay`) only treats a STRICTLY later agent message
as an answer, so with equal timestamps and the threshold elapsed it
reports delayed (threshold 3 minutes, 300 s elapsed). -/
theorem C3_counterexample :
    tieTicket.status = .opened ∧
    tieTicket.lastCustomerMessageAt = some 0 ∧
    tieTicket.lastAgentMessageAt = some 0 ∧
    check_ticket_delay 3 300 tieTicket = true := by decide

/-- C3 amended: `check_ticket_delay` returns not-delayed for every
ticket whose status is not open (in particular every closed ticket),
for every ticket with no recorded customer message, and for every
ticket whose last agent message is STRICTLY after its last customer
message; in all remaining cases it returns delayed iff
`now - last_customer_message_at` strictly exceeds the configured delay
threshold in minutes. -/
theorem C3_amended_delay_decision (th now : Int) (t : Ticket) :
    (t.status ≠ .opened → check_ticket_delay th now t = false) ∧
    (t.lastCustomerMessageAt = none → check_ticket_delay th now t = false) ∧
    (∀ a c, t.lastAgentMessageAt = some a → t.lastCustomerMessageAt = some c →
      c < a → check_ticket_delay th now t = false) ∧
    (∀ c, t.status = .opened → t.lastCustomerMessageAt = some c →
      (∀ a, t.lastAgentMessageAt = some a → a ≤ c) →
      (check_ticket_delay th now t = true ↔ now - c > th * 60)) := by
  refine ⟨?_, ?_, ?_, ?_⟩
  · intro h
    simp [check_ticket_delay, bne_iff_ne, h]
  · intro h
    simp [check_ticket_delay, h]
  · intro a c hA hC hlt
    simp [check_ticket_delay, hA, hC, hlt]
  · intro c hst hC hA
    cases hAg : t.lastAgentMessageAt with
    | none =>
      simp [check_ticket_delay, hst, hC, hAg]
    | some a =>
      have hle : a ≤ c := hA a hAg
      have : ¬(c < a) := not_lt.mpr hle
      simp [check_ticket_delay, hst, hC, hAg, this]

/-- Concrete run of the amended C3: open ticket, customer message at 0,
no agent reply, threshold 3 minutes, observed at 300 s → delayed. -/
theorem C3_witness :
    check_ticket_delay 3 300
      { testTicket 21 5 .opened (some 1) (some 1) with
        lastCustomerMessageAt := some 0 } = true :=
  ((C3_amended_delay_decision 3 300
      { testTicket 21 5 .opened (some 1) (some 1) with
        lastCustomerMessageAt := some 0 }).2.2.2 0 rfl rfl
    (fun a h => nomatch h)).mpr (by decide)

/-! ## C9: daily KPI formulas and upsert idempotence -/

/-- Upserting the same recomputed row twice leaves the KPI table as
after the first upsert: recomputation is idempotent. -/
theorem upsertKpi_idem (table : List AgentKPI) (k : AgentKPI) :
    upsertKpi (upsertKpi table k) k = upsertKpi table k := by
  have hkk : (k.agentId == k.agentId && k.kpiDate == k.kpiDate) = true := by simp
  unfold upsertKpi
  by_cases h : (table.any fun r => r.agentId == k.agentId && r.kpiDate == k.kpiDate) = true
  · rw [if_pos h]
    obtain ⟨r, hr, hkr⟩ := List.any_eq_true.mp h
    have hany2 : ((table.map fun r =>
        if r.agentId == k.agentId && r.kpiDate == k.kpiDate then k else r).any
          fun r => r.agentId == k.agentId && r.kpiDate == k.kpiDate) = true :=
      List.any_eq_true.mpr ⟨k, List.mem_map.mpr ⟨r, hr, by simp [hkr]⟩, hkk⟩
    rw [if_pos hany2, List.map_map]
    refine List.map_congr_left (fun x hx => ?_)
    by_cases hkx : (x.agentId == k.agentId && x.kpiDate == k.kpiDate) = true
    · simp [Function.comp, hkx, hkk]
    · simp [Function.comp, hkx]
  · rw [if_neg h]
    have h' : (table.any fun r => r.agentId == k.agentId && r.kpiDate == k.kpiDate) = false := by
      cases hx : (table.any fun r => r.agentId == k.agentId && r.kpiDate == k.kpiDate)
      · rfl
      · exact absurd hx h
    have hall := List.any_eq_false.mp h'
    have hany2 : ((table ++ [k]).any
        fun r => r.agentId == k.agentId && r.kpiDate == k.kpiDate) = true :=
      List.any_eq_true.mpr ⟨k, by simp, hkk⟩
    rw [if_pos hany2, List.map_append]
    have htab : (table.map fun r =>
        if r.agentId == k.agentId && r.kpiDate == k.kpiDate then k else r) = table := by
      calc (table.map fun r =>
            if r.agentId == k.agentId && r.kpiDate == k.kpiDate then k else r)
          = table.map id :=
            List.map_congr_left (fun r hr => by simp [hall r hr])
        _ = table := List.map_id _
    rw [htab]
    simp [hkk]

/-- C9: the daily KPI computation yields
`first_response_rate = ticketsWithFirstResponse/totalTickets*100` and
`resolution_rate = closedTickets/totalTickets*100` (both 0 with no
tickets), `overall_score = (first_response_rate + resolution_rate +
avgSatisfaction*20)/3` with avgSatisfaction 0 when no ratings exist,
and the per-(agent, date) row is overwritten in full, so recomputation
is idempotent. -/
theorem C9_kpi_formulas_and_upsert (agentId : Nat) (date : Int)
    (d : KpiDayData) (table : List AgentKPI) :
    (d.tickets = [] →
      (calculate_agent_kpi agentId date d).firstResponseRate = 0 ∧
      (calculate_agent_kpi agentId date d).resolutionRate = 0) ∧
    (d.tickets ≠ [] →
      (calculate_agent_kpi agentId date d).firstResponseRate =
        ((d.tickets.filter (fun t => t.firstResponseAt.isSome)).length : ℚ)
          / (d.tickets.length : ℚ) * 100 ∧
      (calculate_agent_kpi agentId date d).resolutionRate =
        ((d.tickets.filter (fun t => t.status == .closed)).length : ℚ)
          / (d.tickets.length : ℚ) * 100) ∧
    (d.ratings = [] →
      (calculate_agent_kpi agentId date d).customerSatisfactionScore = 0) ∧
    (calculate_agent_kpi agentId date d).overallKpiScore =
      ((calculate_agent_kpi agentId date d).firstResponseRate +
        (calculate_agent_kpi agentId date d).resolutionRate +
        (calculate_agent_kpi agentId date d).customerSatisfactionScore * 20) / 3 ∧
    upsertKpi (upsertKpi table (calculate_agent_kpi agentId date d))
        (calculate_agent_kpi agentId date d)
      = upsertKpi table (calculate_agent_kpi agentId date d) := by
  refine ⟨?_, ?_, ?_, ?_, upsertKpi_idem _ _⟩
  · intro h
    simp [calculate_agent_kpi, h]
  · intro h
    have hpos : 0 < d.tickets.length := List.length_pos.mpr h
    constructor <;> simp [calculate_agent_kpi, hpos]
  · intro h
    simp [calculate_agent_kpi, h]
  · rfl

/-- The day slice used by the C9 witness: two tickets (one closed, one
with a first response recorded), one rating of 4, no breaks. -/
def kpiDayFixture : KpiDayData :=
  { tickets := [{ testTicket 30 5 .closed (some 1) (some 1) with
                  firstResponseAt := some 10 },
                testTicket 31 5 .opened (some 1) (some 1)],
    messagesSent := 3, messagesReceived := 4, ratings := [4],
    breakDurations := [] }

/-- Concrete run of C9 on `kpiDayFixture` (a non-empty day slice): the
rate formulas hold and upserting the recomputed row twice equals once. -/
theorem C9_witness :
    kpiDayFixture.tickets ≠ [] ∧
    (calculate_agent_kpi 1 0 kpiDayFixture).firstResponseRate =
      ((kpiDayFixture.tickets.filter (fun t => t.firstResponseAt.isSome)).length : ℚ)
        / (kpiDayFixture.tickets.length : ℚ) * 100 ∧
    (calculate_agent_kpi 1 0 kpiDayFixture).resolutionRate =
      ((kpiDayFixture.tickets.filter (fun t => t.status == .closed)).length : ℚ)
        / (kpiDayFixture.tickets.length : ℚ) * 100 ∧
    upsertKpi (upsertKpi [] (calculate_agent_kpi 1 0 kpiDayFixture))
        (calculate_agent_kpi 1 0 kpiDayFixture)
      = upsertKpi [] (calculate_agent_kpi 1 0 kpiDayFixture) :=
  ⟨by simp [kpiDayFixture],
    ((C9_kpi_formulas_and_upsert 1 0 kpiDayFixture []).2.1
      (by simp [kpiDayFixture])).1,
    ((C9_kpi_formulas_and_upsert 1 0 kpiDayFixture []).2.1
      (by simp [kpiDayFixture])).2,
    (C9_kpi_formulas_and_upsert 1 0 kpiDayFixture []).2.2.2.2⟩

/-! ## C2: break-start redistribution does not exclude the breaking agent -/

/-- Break fixture: agent 1 (load 0) holds one open ticket and wants a
break; agent 2 (load 1) is online, available and under capacity. -/
def breakStateA : EngineState :=
  { agents := [testAgent 1 5 0 .available, testAgent 2 5 1 .available],
    tickets := [testTicket 200 7 .opened (some 1) (some 1)],
    transferLogs := [], stateLogs := [], breakSessions := [] }

/-- C2, failing run: `take_break` re-queries `get_available_agent`
before the breaking agent's flags are saved, so the breaking agent
itself (here the least-loaded agent 1) is selected for its own ticket:
the ticket stays pointed at the now-on-break agent 1, a transfer-log
row from agent 1 to agent 1 is appended, and the available agent 2
receives nothing — even though the claim (and the view's own comments)
say the redistribution selects an available agent excluding the
breaking agent. -/
theorem C2_self_transfer_run :
    (take_break breakStateA 1 9 1000).1 = .ok ∧
    ((take_break breakStateA 1 9 1000).2.transferLogs.map
        (fun l => (l.ticketId, l.fromAgent, l.toAgent))) = [(200, some 1, 1)] ∧
    (findTicket (take_break breakStateA 1 9 1000).2 200).map (·.currentAgent)
      = some (some 1) ∧
    (findAgent (take_break breakStateA 1 9 1000).2 1).map
        (fun a => (a.isOnBreak, a.status, a.currentActiveTickets))
      = some (true, .onBreak, 0) ∧
    (findAgent (take_break breakStateA 1 9 1000).2 2).map (·.currentActiveTickets)
      = some 1 := by decide

/-! ## C7: no AgentBreakSession row is opened at break start -/

/-- Break fixture: a single available agent with no open tickets. -/
def breakStateB : EngineState :=
  { agents := [testAgent 3 5 0 .available],
    tickets := [], transferLogs := [], stateLogs := [], breakSessions := [] }

/-- C7, failing run: after a successful `take_break` the agent is on
break yet the AgentBreakSession table is still empty — no row with
`break_end_time` null is ever opened; `end_break` then creates the one
row fully populated (end time and duration already set at creation),
contrary to the claim and to the model's own docstring. -/
theorem C7_session_created_only_at_end :
    (take_break breakStateB 3 9 500).1 = .ok ∧
    (findAgent (take_break breakStateB 3 9 500).2 3).map (·.isOnBreak)
      = some true ∧
    (take_break breakStateB 3 9 500).2.breakSessions = [] ∧
    (end_break (take_break breakStateB 3 9 500).2 3 800).1 = .ok ∧
    (end_break (take_break breakStateB 3 9 500).2 3 800).2.breakSessions =
      [{ agentId := 3, breakStartTime := 500, breakEndTime := some 800,
         breakDurationSeconds := some 300 }] := by decide


/-! ## C1: the 0 ≤ current_active_tickets ≤ max_capacity invariant -/

/-- Every agent row satisfies `0 ≤ current_active_tickets ≤ max_capacity`. -/
@[reducible] def AgentsCounterInv (s : EngineState) : Prop :=
  ∀ a ∈ s.agents, 0 ≤ a.currentActiveTickets ∧ a.currentActiveTickets ≤ a.maxCapacity

/-- Every agent row satisfies `0 ≤ current_active_tickets`. -/
@[reducible] def AgentsNonneg (s : EngineState) : Prop :=
  ∀ a ∈ s.agents, 0 ≤ a.currentActiveTickets

theorem updateAgent_all {P : Agent → Prop} {s : EngineState} {a : Agent}
    (hall : ∀ x ∈ s.agents, P x) (ha : P a) :
    ∀ x ∈ (updateAgent s a).agents, P x := by
  intro x hx
  rcases mem_updateAgent hx with h | rfl
  · exact hall x h
  · exact ha

/-- `updateTicket` leaves the agents table unchanged, so any per-agent
property survives it. -/
theorem updateTicket_all {P : Agent → Prop} {s : EngineState} (t : Ticket)
    (h : ∀ x ∈ s.agents, P x) : ∀ x ∈ (updateTicket s t).agents, P x := h

theorem releaseSlot_inv {s : EngineState} (h : AgentsCounterInv s)
    (aid? : Option Nat) : AgentsCounterInv (releaseSlot s aid?) := by
  unfold releaseSlot
  rcases aid? with - | aid
  · exact h
  · dsimp only
    cases hfa : findAgent s aid with
    | none => exact h
    | some ag =>
      have hag := h ag (findAgent_mem hfa)
      dsimp only
      apply updateAgent_all h
      constructor
      · show (0:Int) ≤ max 0 (ag.currentActiveTickets - 1)
        exact le_max_left 0 _
      · show max 0 (ag.currentActiveTickets - 1) ≤ ag.maxCapacity
        exact max_le (by omega) (by omega)

theorem appendStateLog_agents (s : EngineState) (actor : Option Nat)
    (tid : Nat) (old new reason : String) :
    (appendStateLog s actor tid old new reason).agents = s.agents := by
  unfold appendStateLog
  cases actor <;> rfl

theorem appendTransferLog_agents (s : EngineState) (actor : Option Nat)
    (tid : Nat) (fromA : Option Nat) (toA : Nat) (reason : String) :
    (appendTransferLog s actor tid fromA toA reason).agents = s.agents := by
  unfold appendTransferLog
  cases actor <;> rfl

theorem agents_all_of_eq {P : Agent → Prop} {s1 s2 : EngineState}
    (h : s1.agents = s2.agents) (h2 : ∀ a ∈ s2.agents, P a) :
    ∀ a ∈ s1.agents, P a := by
  intro x hx
  exact h2 x (h ▸ hx)

/-- One `take_break` loop iteration keeps all counters non-negative:
the selected agent's counter becomes a live row count. -/
theorem takeBreakStep_nonneg (bid u : Nat) {acc : EngineState}
    (h : AgentsNonneg acc) (t : Ticket) :
    AgentsNonneg (takeBreakStep bid u acc t) := by
  unfold takeBreakStep
  cases hga : get_available_agent acc with
  | none => exact h
  | some na =>
    dsimp only
    intro x hx
    rcases mem_updateAgent hx with hmem | rfl
    · exact h x hmem
    · exact Int.natCast_nonneg _

/-- `bulkTransferStep` never touches the agents table. -/
theorem bulkTransferStep_agents (f t u : Nat) (n : String)
    (acc : EngineState) (tk : Ticket) :
    (bulkTransferStep f t u n acc tk).agents = acc.agents := rfl

/-- Bulk-transfer counterexample state: agent 2 is at its capacity of
one; agent 1 holds the one open ticket of customer 7. -/
def overCapState : EngineState :=
  { agents := [testAgent 1 5 1 .available, testAgent 2 1 1 .busy],
    tickets := [testTicket 100 7 .opened (some 1) (some 1),
                testTicket 101 9 .opened (some 2) (some 2)],
    transferLogs := [], stateLogs := [], breakSessions := [] }

/-- C1 counterexample: a state satisfying the invariant on which the
customer-level bulk transfer (`transfer_ticket_api`, one of the listed
engine operations) succeeds — it has no capacity check — and leaves
agent 2 with `current_active_tickets = 2` above `max_capacity = 1`. -/
theorem C1_counterexample :
    AgentsCounterInv overCapState ∧
    (transfer_ticket_api overCapState 1 7 2 "" 9).1 = .ok ∧
    ¬ AgentsCounterInv (transfer_ticket_api overCapState 1 7 2 "" 9).2 := by
  refine ⟨by decide, by decide, by decide⟩

/-- C1 amended: starting from any state satisfying the invariant,
ticket creation with assignment, ticket close, manual transfer and
break end preserve `0 ≤ current_active_tickets ≤ max_capacity` for
every agent; break start and the customer-level bulk transfer guarantee
only the lower bound `0 ≤ current_active_tickets` — they rewrite
counters from the live open-ticket set (or to zero), which the code
never bounds by `max_capacity`. -/
theorem C1_amended_capacity_invariant (s : EngineState)
    (hinv : AgentsCounterInv s) :
    (∀ tid cid now, AgentsCounterInv (perform_create s tid cid now)) ∧
    (∀ tid actor reason now,
      AgentsCounterInv (close_ticket s tid actor reason now).2) ∧
    (∀ tid aid actor reason,
      AgentsCounterInv (transfer_ticket s tid aid actor reason).2) ∧
    (∀ aid now, AgentsCounterInv (end_break s aid now).2) ∧
    (∀ aid u now, AgentsNonneg (take_break s aid u now).2) ∧
    (∀ f cid t note u, AgentsNonneg (transfer_ticket_api s f cid t note u).2) := by
  refine ⟨?_, ?_, ?_, ?_, ?_, ?_⟩
  · -- perform_create
    intro tid cid now
    unfold perform_create
    cases hga : get_available_agent s with
    | none => exact hinv
    | some agent =>
      obtain ⟨hmem, helig⟩ := get_available_agent_spec hga
      have hlt : agent.currentActiveTickets < agent.maxCapacity := by
        simp only [agentEligible, Bool.and_eq_true, decide_eq_true_eq] at helig
        exact helig.2
      have h0 : 0 ≤ agent.currentActiveTickets := (hinv agent hmem).1
      dsimp only
      apply updateAgent_all (fun x hx => hinv x hx)
      by_cases hcap : agent.currentActiveTickets + 1 ≥ agent.maxCapacity
      · rw [if_pos hcap]
        refine ⟨?_, ?_⟩
        · show (0:Int) ≤ agent.currentActiveTickets + 1
          omega
        · show agent.currentActiveTickets + 1 ≤ agent.maxCapacity
          omega
      · rw [if_neg hcap]
        refine ⟨?_, ?_⟩
        · show (0:Int) ≤ agent.currentActiveTickets + 1
          omega
        · show agent.currentActiveTickets + 1 ≤ agent.maxCapacity
          omega
  · -- close_ticket
    intro tid actor reason now
    unfold close_ticket
    cases hft : findTicket s tid with
    | none => exact hinv
    | some t =>
      dsimp only
      by_cases hcl : (t.status == TicketStatus.closed) = true
      · rw [if_pos hcl]; exact hinv
      · rw [if_neg hcl]
        dsimp only
        intro x hx
        rw [appendStateLog_agents] at hx
        exact releaseSlot_inv (updateTicket_all _ hinv) t.currentAgent x hx
  · -- transfer_ticket
    intro tid aid actor reason
    unfold transfer_ticket
    cases hft : findTicket s tid with
    | none => exact hinv
    | some t =>
      dsimp only
      cases hfa : findAgent s aid with
      | none => exact hinv
      | some newAgent =>
        dsimp only
        by_cases hcap : newAgent.currentActiveTickets ≥ newAgent.maxCapacity
        · rw [if_pos hcap]; exact hinv
        · rw [if_neg hcap]
          dsimp only
          have hnew := hinv newAgent (findAgent_mem hfa)
          intro x hx
          rw [appendTransferLog_agents] at hx
          refine updateAgent_all
            (releaseSlot_inv (updateTicket_all _ hinv) t.currentAgent)
            ⟨?_, ?_⟩ x hx
          · show (0:Int) ≤ newAgent.currentActiveTickets + 1
            omega
          · show newAgent.currentActiveTickets + 1 ≤ newAgent.maxCapacity
            omega
  · -- end_break
    intro aid now
    unfold end_break
    cases hfa : findAgent s aid with
    | none => exact hinv
    | some agent =>
      dsimp only
      by_cases hob : (!agent.isOnBreak) = true
      · rw [if_pos hob]; exact hinv
      · rw [if_neg hob]
        have hag := hinv agent (findAgent_mem hfa)
        cases agent.breakStartedAt with
        | some t0 =>
          dsimp only
          apply updateAgent_all (fun x hx => hinv x hx)
          exact hag
        | none =>
          dsimp only
          apply updateAgent_all (fun x hx => hinv x hx)
          exact hag
  · -- take_break
    intro aid u now
    unfold take_break
    cases hfa : findAgent s aid with
    | none => exact fun x hx => (hinv x hx).1
    | some agent =>
      dsimp only
      by_cases hob : agent.isOnBreak = true
      · rw [if_pos hob]; exact fun x hx => (hinv x hx).1
      · rw [if_neg hob]
        dsimp only
        apply updateAgent_all
        · exact List.foldl_invariant AgentsNonneg _ _ s
            (fun acc tk _ h => takeBreakStep_nonneg aid u h tk)
            (fun x hx => (hinv x hx).1)
        · exact le_refl 0
  · -- transfer_ticket_api
    intro f cid tgt note u
    unfold transfer_ticket_api
    cases hff : findAgent s f with
    | none => exact fun x hx => (hinv x hx).1
    | some fromAgent =>
      dsimp only
      cases hftg : findAgent s tgt with
      | none => exact fun x hx => (hinv x hx).1
      | some toAgent =>
        dsimp only
        by_cases hne : (customerOpenTicketsOf s cid f).isEmpty = true
        · rw [if_pos hne]; exact fun x hx => (hinv x hx).1
        · rw [if_neg hne]
          dsimp only
          apply updateAgent_all
          · apply updateAgent_all
            · exact List.foldl_invariant AgentsNonneg _ _ s
                (fun acc tk _ h =>
                  agents_all_of_eq (bulkTransferStep_agents f tgt u note acc tk) h)
                (fun x hx => (hinv x hx).1)
            · exact Int.natCast_nonneg _
          · exact Int.natCast_nonneg _

/-- Concrete run of the amended C1 on `breakStateA` (which satisfies
the invariant): all six operation families keep the stated bounds. -/
theorem C1_witness :
    AgentsCounterInv breakStateA ∧
    AgentsCounterInv (perform_create breakStateA 300 8 0) ∧
    AgentsCounterInv (close_ticket breakStateA 200 (some 9) "" 10).2 ∧
    AgentsCounterInv (transfer_ticket breakStateA 200 2 (some 9) "").2 ∧
    AgentsCounterInv (end_break breakStateA 1 10).2 ∧
    AgentsNonneg (take_break breakStateA 1 9 10).2 ∧
    AgentsNonneg (transfer_ticket_api breakStateA 1 7 2 "" 9).2 := by
  have hinv : AgentsCounterInv breakStateA := by decide
  have h := C1_amended_capacity_invariant breakStateA hinv
  exact ⟨hinv, h.1 300 8 0, h.2.1 200 (some 9) "" 10, h.2.2.1 200 2 (some 9) "",
    h.2.2.2.1 1 10, h.2.2.2.2.1 1 9 10, h.2.2.2.2.2 1 7 2 "" 9⟩

/-! ## C8: assigned_agent across assignment and transfers -/

/-- The (id, assigned_agent) column of the ticket table. -/
def ticketPairs (s : EngineState) : List (Nat × Option Nat) :=
  s.tickets.map (fun x => (x.id, x.assignedAgent))

theorem ticketPairs_congr {s1 s2 : EngineState} (h : s1.tickets = s2.tickets) :
    ticketPairs s1 = ticketPairs s2 := by
  rw [ticketPairs, ticketPairs, h]

theorem releaseSlot_tickets (s : EngineState) (aid? : Option Nat) :
    (releaseSlot s aid?).tickets = s.tickets := by
  unfold releaseSlot
  rcases aid? with - | aid
  · rfl
  · dsimp only
    cases findAgent s aid <;> rfl

theorem appendStateLog_tickets (s : EngineState) (actor : Option Nat)
    (tid : Nat) (old new reason : String) :
    (appendStateLog s actor tid old new reason).tickets = s.tickets := by
  unfold appendStateLog
  cases actor <;> rfl

theorem appendTransferLog_tickets (s : EngineState) (actor : Option Nat)
    (tid : Nat) (fromA : Option Nat) (toA : Nat) (reason : String) :
    (appendTransferLog s actor tid fromA toA reason).tickets = s.tickets := by
  unfold appendTransferLog
  cases actor <;> rfl

/-- Overwriting a row whose assigned_agent agrees with every same-id row
leaves the (id, assigned_agent) column unchanged. -/
theorem updateTicket_pairs {s : EngineState} (t' : Ticket)
    (h : ∀ x ∈ s.tickets, x.id = t'.id → x.assignedAgent = t'.assignedAgent) :
    ticketPairs (updateTicket s t') = ticketPairs s := by
  unfold ticketPairs updateTicket
  dsimp only
  rw [List.map_map]
  refine List.map_congr_left (fun x hx => ?_)
  by_cases hid : (x.id == t'.id) = true
  · have hid' : x.id = t'.id := by simpa using hid
    have hass := h x hx hid'
    simp [Function.comp, hid, hid', hass]
  · simp [Function.comp, hid]

/-- With duplicate-free ticket ids, every row of a pairs-preserving
state that shares an id with a row `t` of `s` also shares its
assigned_agent. -/
theorem assigned_eq_of_pairs {s acc : EngineState}
    (hnd : (s.tickets.map (fun t => t.id)).Nodup)
    (hP : ticketPairs acc = ticketPairs s) {t : Ticket} (ht : t ∈ s.tickets) :
    ∀ x ∈ acc.tickets, x.id = t.id → x.assignedAgent = t.assignedAgent := by
  intro x hx hid
  have hpair : (x.id, x.assignedAgent) ∈ ticketPairs s := by
    rw [← hP]
    exact List.mem_map_of_mem _ hx
  obtain ⟨y, hy, hyx⟩ := List.mem_map.mp hpair
  obtain ⟨hyid, hyass⟩ := Prod.mk.injEq .. ▸ hyx
  have hyt : y = t := List.inj_on_of_nodup_map hnd hy ht (by rw [hyid, hid])
  rw [← hyass, hyt]

/-- One `take_break` loop iteration preserves the (id, assigned_agent)
column: it only rewrites a ticket's current_agent. -/
theorem takeBreakStep_pairs {s : EngineState}
    (hnd : (s.tickets.map (fun t => t.id)).Nodup) (bid u : Nat)
    {acc : EngineState} {t : Ticket} (ht : t ∈ s.tickets)
    (hP : ticketPairs acc = ticketPairs s) :
    ticketPairs (takeBreakStep bid u acc t) = ticketPairs s := by
  unfold takeBreakStep
  cases get_available_agent acc with
  | none => exact hP
  | some na =>
    dsimp only
    exact (updateTicket_pairs { t with currentAgent := some na.id }
      (assigned_eq_of_pairs hnd hP (t := t) ht)).trans hP

/-- One bulk-transfer loop iteration preserves the (id, assigned_agent)
column. -/
theorem bulkTransferStep_pairs {s : EngineState}
    (hnd : (s.tickets.map (fun t => t.id)).Nodup) (f tgt u : Nat)
    (note : String) {acc : EngineState} {t : Ticket} (ht : t ∈ s.tickets)
    (hP : ticketPairs acc = ticketPairs s) :
    ticketPairs (bulkTransferStep f tgt u note acc t) = ticketPairs s := by
  unfold bulkTransferStep
  dsimp only
  exact (updateTicket_pairs { t with currentAgent := some tgt }
    (assigned_eq_of_pairs hnd hP (t := t) ht)).trans hP

/-- An open ticket that already carries `assigned_agent = 1`. -/
def preAssignedTicket : Ticket := testTicket 40 6 .opened (some 1) (some 1)

/-- C8 counterexample: `assign_ticket_to_agent` does not check that
`assigned_agent` is unset — called on a ticket already assigned to
agent 1 it overwrites the field with agent 2, so the claim's "set only
if previously unset / immutable once set" fails on the assignment
function itself. -/
theorem C8_counterexample :
    preAssignedTicket.assignedAgent = some 1 ∧
    (assign_ticket_to_agent preAssignedTicket (testAgent 2 5 0 .available)).1.assignedAgent
      = some 2 := by decide

/-- C8 amended: `assign_ticket_to_agent` sets `assigned_agent` (and
`current_agent`) unconditionally, overwriting any previous value — the
first-assignment-only behaviour comes from its call sites, which only
assign freshly created tickets; and every transfer operation (manual
transfer, customer-level bulk transfer, break-start redistribution)
changes only `current_agent`, leaving every ticket's
(id, assigned_agent) column unchanged. -/
theorem C8_amended_assigned_agent (s : EngineState)
    (hnd : (s.tickets.map (fun t => t.id)).Nodup) :
    (∀ t a, (assign_ticket_to_agent t a).1.assignedAgent = some a.id ∧
            (assign_ticket_to_agent t a).1.currentAgent = some a.id) ∧
    (∀ tid aid actor reason,
      ticketPairs (transfer_ticket s tid aid actor reason).2 = ticketPairs s) ∧
    (∀ f cid tgt note u,
      ticketPairs (transfer_ticket_api s f cid tgt note u).2 = ticketPairs s) ∧
    (∀ aid u now, ticketPairs (take_break s aid u now).2 = ticketPairs s) := by
  refine ⟨fun t a => ⟨rfl, rfl⟩, ?_, ?_, ?_⟩
  · -- manual transfer
    intro tid aid actor reason
    unfold transfer_ticket
    cases hft : findTicket s tid with
    | none => rfl
    | some t =>
      dsimp only
      cases hfa : findAgent s aid with
      | none => rfl
      | some newAgent =>
        dsimp only
        by_cases hcap : newAgent.currentActiveTickets ≥ newAgent.maxCapacity
        · rw [if_pos hcap]
        · rw [if_neg hcap]
          dsimp only
          calc ticketPairs (appendTransferLog _ actor tid t.currentAgent aid reason)
              = ticketPairs (updateTicket s { t with currentAgent := some aid }) :=
                ticketPairs_congr
                  (by rw [appendTransferLog_tickets, updateAgent_tickets,
                        releaseSlot_tickets])
            _ = ticketPairs s :=
                updateTicket_pairs { t with currentAgent := some aid }
                  (assigned_eq_of_pairs hnd rfl (t := t) (findTicket_mem hft))
  · -- customer-level bulk transfer
    intro f cid tgt note u
    unfold transfer_ticket_api
    cases hff : findAgent s f with
    | none => rfl
    | some fromAgent =>
      dsimp only
      cases hftg : findAgent s tgt with
      | none => rfl
      | some toAgent =>
        dsimp only
        by_cases hne : (customerOpenTicketsOf s cid f).isEmpty = true
        · rw [if_pos hne]
        · rw [if_neg hne]
          dsimp only
          have hfold : ticketPairs
              ((customerOpenTicketsOf s cid f).foldl
                (bulkTransferStep f tgt u note) s) = ticketPairs s := by
            apply List.foldl_invariant
              (fun st => ticketPairs st = ticketPairs s) _ _ s
            · intro acc tk htk hP
              exact bulkTransferStep_pairs hnd f tgt u note
                (List.mem_of_mem_filter htk) hP
            · rfl
          calc ticketPairs (updateAgent (updateAgent _ _) _)
              = ticketPairs ((customerOpenTicketsOf s cid f).foldl
                  (bulkTransferStep f tgt u note) s) :=
                ticketPairs_congr (by rw [updateAgent_tickets, updateAgent_tickets])
            _ = ticketPairs s := hfold
  · -- break-start redistribution
    intro aid u now
    unfold take_break
    cases hfa : findAgent s aid with
    | none => rfl
    | some agent =>
      dsimp only
      by_cases hob : agent.isOnBreak = true
      · rw [if_pos hob]
      · rw [if_neg hob]
        dsimp only
        have hfold : ticketPairs
            ((s.tickets.filter
                (fun t => t.currentAgent == some aid && t.status == .opened)).foldl
              (takeBreakStep aid u) s) = ticketPairs s := by
          apply List.foldl_invariant
            (fun st => ticketPairs st = ticketPairs s) _ _ s
          · intro acc tk htk hP
            exact takeBreakStep_pairs hnd aid u
              (List.mem_of_mem_filter htk) hP
          · rfl
        calc ticketPairs (updateAgent _ _)
            = ticketPairs ((s.tickets.filter
                (fun t => t.currentAgent == some aid && t.status == .opened)).foldl
                  (takeBreakStep aid u) s) :=
              ticketPairs_congr (by rw [updateAgent_tickets])
          _ = ticketPairs s := hfold

/-- Concrete run of the amended C8 on `breakStateA` (duplicate-free
ticket ids): manual transfer, bulk transfer and break start all leave
the (id, assigned_agent) column unchanged, and assignment overwrites. -/
theorem C8_witness :
    (breakStateA.tickets.map (fun t => t.id)).Nodup ∧
    (assign_ticket_to_agent (testTicket 41 6 .opened none none)
        (testAgent 2 5 0 .available)).1.assignedAgent = some 2 ∧
    ticketPairs (transfer_ticket breakStateA 200 2 (some 9) "").2
      = ticketPairs breakStateA ∧
    ticketPairs (transfer_ticket_api breakStateA 1 7 2 "" 9).2
      = ticketPairs breakStateA ∧
    ticketPairs (take_break breakStateA 1 9 1000).2 = ticketPairs breakStateA :=
  ⟨by decide,
    ((C8_amended_assigned_agent breakStateA (by decide)).1
      (testTicket 41 6 .opened none none) (testAgent 2 5 0 .available)).1,
    (C8_amended_assigned_agent breakStateA (by decide)).2.1 200 2 (some 9) "",
    (C8_amended_assigned_agent breakStateA (by decide)).2.2.1 1 7 2 "" 9,
    (C8_amended_assigned_agent breakStateA (by decide)).2.2.2 1 9 1000⟩

/-! ## C10: customer-level bulk transfer has no capacity check -/

theorem find?_map_update_self (l : List Agent) (a : Agent) (aid : Nat)
    (hid : a.id = aid)
    (h : (l.find? (fun x => x.id == aid)).isSome) :
    (l.map (fun x => if x.id == a.id then a else x)).find?
      (fun x => x.id == aid) = some a := by
  induction l with
  | nil => simp [List.find?] at h
  | cons y ys ih =>
    by_cases hy : (y.id == aid) = true
    · have hya : (y.id == a.id) = true := by rw [hid]; exact hy
      have hpa : (a.id == aid) = true := by simp [hid]
      simp [List.find?, hya, hpa]
    · have hyf : (y.id == aid) = false := by simpa using hy
      have hya : (y.id == a.id) = false := by rw [hid]; exact hyf
      have h' : (ys.find? (fun x => x.id == aid)).isSome := by
        rw [List.find?] at h
        simpa [hyf] using h
      simp only [List.map, List.find?, hya, if_neg, Bool.false_eq_true,
        not_false_iff, hyf]
      exact ih h'

theorem find?_map_update_other (l : List Agent) (a : Agent) (aid : Nat)
    (hid : a.id ≠ aid) :
    (l.map (fun x => if x.id == a.id then a else x)).find?
      (fun x => x.id == aid) = l.find? (fun x => x.id == aid) := by
  induction l with
  | nil => rfl
  | cons y ys ih =>
    have hpa : (a.id == aid) = false := by simpa using hid
    by_cases hy : (y.id == a.id) = true
    · have hyf : (y.id == aid) = false := by
        have : y.id = a.id := by simpa using hy
        rw [this]; exact hpa
      simp only [List.map, List.find?, hy, if_pos, hpa, hyf]
      exact ih
    · have hy' : (y.id == a.id) = false := by simpa using hy
      by_cases hym : (y.id == aid) = true
      · simp [List.find?, hy', hym]
      · have hymf : (y.id == aid) = false := by simpa using hym
        simp only [List.map, List.find?, hy', if_neg, Bool.false_eq_true,
          not_false_iff, hymf]
        exact ih

theorem findAgent_updateAgent_self {s : EngineState} {aid : Nat} {a : Agent}
    (hid : a.id = aid) (h : (findAgent s aid).isSome) :
    findAgent (updateAgent s a) aid = some a :=
  find?_map_update_self s.agents a aid hid h

theorem findAgent_updateAgent_other {s : EngineState} {aid : Nat} {a : Agent}
    (hid : a.id ≠ aid) :
    findAgent (updateAgent s a) aid = findAgent s aid :=
  find?_map_update_other s.agents a aid hid

theorem findAgent_congr {s1 s2 : EngineState} (h : s1.agents = s2.agents)
    (aid : Nat) : findAgent s1 aid = findAgent s2 aid := by
  unfold findAgent
  rw [h]

theorem openTicketCountOf_congr {s1 s2 : EngineState}
    (h : s1.tickets = s2.tickets) (aid : Nat) :
    openTicketCountOf s1 aid = openTicketCountOf s2 aid := by
  unfold openTicketCountOf
  rw [h]

/-- After the bulk-transfer loop over the snapshot of the customer's
open tickets held by `f`, no ticket of that customer is still open and
held by `f` (for a distinct target agent). -/
theorem bulk_fold_clears (f tgt u : Nat) (note : String) (cid : Nat)
    (hftgt : f ≠ tgt) :
    ∀ (l : List Ticket) (acc : EngineState),
      (∀ x ∈ acc.tickets,
        (x.customerId == cid && x.currentAgent == some f
          && x.status == TicketStatus.opened) = true → x ∈ l) →
      ∀ x ∈ (l.foldl (bulkTransferStep f tgt u note) acc).tickets,
        (x.customerId == cid && x.currentAgent == some f
          && x.status == TicketStatus.opened) = false
  | [], acc, h => by
    intro x hx
    cases hpx : (x.customerId == cid && x.currentAgent == some f
        && x.status == TicketStatus.opened) with
    | false => rfl
    | true => exact absurd (h x hx hpx) (List.not_mem_nil x)
  | t :: ts, acc, h => by
    rw [List.foldl_cons]
    apply bulk_fold_clears f tgt u note cid hftgt ts (bulkTransferStep f tgt u note acc t)
    intro x hx hpx
    have hx' : x ∈ (updateTicket acc { t with currentAgent := some tgt }).tickets := hx
    simp only [updateTicket, List.mem_map] at hx'
    obtain ⟨y, hy, hyx⟩ := hx'
    by_cases hyid : (y.id == t.id) = true
    · rw [if_pos hyid] at hyx
      subst hyx
      exfalso
      have : ((some tgt : Option Nat) == some f) = true := by
        have := hpx
        simp only [Bool.and_eq_true] at this
        exact this.1.2
      have : tgt = f := by simpa using this
      exact hftgt this.symm
    · rw [if_neg hyid] at hyx
      subst hyx
      have hyl : y ∈ t :: ts := h y hy hpx
      rcases List.mem_cons.mp hyl with rfl | hmem
      · simp at hyid
      · exact hmem

/-- C10: the customer-level bulk transfer performs no capacity check on
the target agent: for every existing target agent — nothing about its
load is assumed — the transfer of all of the customer's open tickets
succeeds, afterwards both the source and the target agents'
`current_active_tickets` equal the number of open tickets whose
`current_agent` is that agent (recomputed from the live ticket set),
and (for a distinct target) no open ticket of the customer remains with
the source agent. -/
theorem C10_bulk_transfer_no_capacity_check (s : EngineState)
    (f cid tgt : Nat) (note : String) (u : Nat) (fa ta : Agent)
    (hf : findAgent s f = some fa)
    (ht : findAgent s tgt = some ta)
    (hne : customerOpenTicketsOf s cid f ≠ []) :
    (transfer_ticket_api s f cid tgt note u).1 = .ok ∧
    ((findAgent (transfer_ticket_api s f cid tgt note u).2 tgt).map
        (fun a => a.currentActiveTickets))
      = some (openTicketCountOf (transfer_ticket_api s f cid tgt note u).2 tgt) ∧
    ((findAgent (transfer_ticket_api s f cid tgt note u).2 f).map
        (fun a => a.currentActiveTickets))
      = some (openTicketCountOf (transfer_ticket_api s f cid tgt note u).2 f) ∧
    (f ≠ tgt →
      (transfer_ticket_api s f cid tgt note u).2.tickets.filter
        (fun t => t.customerId == cid && t.currentAgent == some f
          && t.status == TicketStatus.opened) = []) := by
  have hfid : fa.id = f := findAgent_id hf
  have htid : ta.id = tgt := findAgent_id ht
  have hne' : (customerOpenTicketsOf s cid f).isEmpty = false := by
    cases hemp : (customerOpenTicketsOf s cid f).isEmpty with
    | false => rfl
    | true => exact absurd (List.isEmpty_iff.mp hemp) hne
  have hkey : transfer_ticket_api s f cid tgt note u =
      (.ok,
        let s1 := (customerOpenTicketsOf s cid f).foldl
          (bulkTransferStep f tgt u note) s
        let cFrom := openTicketCountOf s1 f
        let s2 := updateAgent s1 { fa with
          currentActiveTickets := cFrom
          status := if cFrom < fa.maxCapacity then .available else fa.status }
        let cTo := openTicketCountOf s2 tgt
        updateAgent s2 { ta with
          currentActiveTickets := cTo
          status := if cTo ≥ ta.maxCapacity then .busy else ta.status }) := by
    unfold transfer_ticket_api
    rw [hf, ht]
    dsimp only
    rw [if_neg (by rw [hne']; exact Bool.false_ne_true)]
  rw [hkey]
  dsimp only
  set s1 := (customerOpenTicketsOf s cid f).foldl (bulkTransferStep f tgt u note) s
    with hs1def
  have hs1agents : s1.agents = s.agents := by
    rw [hs1def]
    apply List.foldl_invariant (fun st => st.agents = s.agents) _ _ s
    · intro acc tk _ hacc
      rw [bulkTransferStep_agents]
      exact hacc
    · rfl
  set fromRec : Agent := { fa with
    currentActiveTickets := openTicketCountOf s1 f
    status := if openTicketCountOf s1 f < fa.maxCapacity then .available
              else fa.status } with hfromRec
  set s2 := updateAgent s1 fromRec with hs2def
  set toRec : Agent := { ta with
    currentActiveTickets := openTicketCountOf s2 tgt
    status := if openTicketCountOf s2 tgt ≥ ta.maxCapacity then .busy
              else ta.status } with htoRec
  have hfromId : fromRec.id = f := hfid
  have htoId : toRec.id = tgt := htid
  have hs1f : findAgent s1 f = some fa := by rw [findAgent_congr hs1agents, hf]
  have hs1tgt : findAgent s1 tgt = some ta := by rw [findAgent_congr hs1agents, ht]
  have hs3tickets : (updateAgent s2 toRec).tickets = s1.tickets := rfl
  have hs2tgtSome : (findAgent s2 tgt).isSome := by
    by_cases hfeq : f = tgt
    · have heq : findAgent s2 tgt = some fromRec :=
        findAgent_updateAgent_self (by rw [hfromId, hfeq]) (by rw [hs1tgt]; rfl)
      rw [heq]
      rfl
    · have heq : findAgent s2 tgt = findAgent s1 tgt :=
        findAgent_updateAgent_other (by rw [hfromId]; exact hfeq)
      rw [heq, hs1tgt]
      rfl
  have hs3tgt : findAgent (updateAgent s2 toRec) tgt = some toRec :=
    findAgent_updateAgent_self htoId hs2tgtSome
  refine ⟨rfl, ?_, ?_, ?_⟩
  · rw [hs3tgt]
    have hcnt : openTicketCountOf (updateAgent s2 toRec) tgt
        = openTicketCountOf s2 tgt := openTicketCountOf_congr rfl tgt
    rw [hcnt]
    rfl
  · by_cases hfeq : f = tgt
    · subst hfeq
      rw [hs3tgt]
      have hcnt : openTicketCountOf (updateAgent s2 toRec) f
          = openTicketCountOf s2 f := openTicketCountOf_congr rfl f
      rw [hcnt]
      rfl
    · have h1 : findAgent (updateAgent s2 toRec) f = findAgent s2 f :=
        findAgent_updateAgent_other (by rw [htoId]; exact fun hc => hfeq hc.symm)
      have h2 : findAgent s2 f = some fromRec :=
        findAgent_updateAgent_self hfromId (by rw [hs1f]; rfl)
      rw [h1, h2]
      have hcnt : openTicketCountOf (updateAgent s2 toRec) f
          = openTicketCountOf s1 f := openTicketCountOf_congr hs3tickets f
      rw [hcnt]
      rfl
  · intro hfeq
    apply List.filter_eq_nil_iff.mpr
    intro x hx
    rw [hs3tickets, hs1def] at hx
    have hcl := bulk_fold_clears f tgt u note cid hfeq (customerOpenTicketsOf s cid f) s
      (fun y hy hpy => List.mem_filter.mpr ⟨hy, hpy⟩) x hx
    simp [hcl]

/-- Concrete run of C10 on `overCapState`: the target agent 2 is
already at its capacity of one, yet the bulk transfer succeeds, both
counters equal the live open-ticket counts (0 for agent 1, 2 for
agent 2), and customer 7 has no open ticket left with agent 1. -/
theorem C10_witness :
    (transfer_ticket_api overCapState 1 7 2 "" 9).1 = .ok ∧
    ((findAgent (transfer_ticket_api overCapState 1 7 2 "" 9).2 2).map
        (fun a => a.currentActiveTickets))
      = some (openTicketCountOf (transfer_ticket_api overCapState 1 7 2 "" 9).2 2) ∧
    ((findAgent (transfer_ticket_api overCapState 1 7 2 "" 9).2 1).map
        (fun a => a.currentActiveTickets))
      = some (openTicketCountOf (transfer_ticket_api overCapState 1 7 2 "" 9).2 1) ∧
    (transfer_ticket_api overCapState 1 7 2 "" 9).2.tickets.filter
        (fun t => t.customerId == 7 && t.currentAgent == some 1
          && t.status == TicketStatus.opened) = [] := by
  have h := C10_bulk_transfer_no_capacity_check overCapState 1 7 2 "" 9
    (testAgent 1 5 1 .available) (testAgent 2 1 1 .busy)
    (by decide) (by decide) (by decide)
  exact ⟨h.1, h.2.1, h.2.2.1, h.2.2.2 (by decide)⟩
